import Mathlib

/-!
# Gateway run actions (`internal/services/gateway/action/run.go`)

A shallow embedding of the five operations of the gateway `ActionHandler`
that mediate access to the run service: `GetRun`, `GetRuns`, `GetLogs`,
`RunAction` and `RunTaskAction`.

The handler holds no state of its own.  Everything it does is a sequence of
calls to two collaborators, the run service client and the permission checks,
followed by the construction of a result.  The embedding therefore passes an
explicit world `σ` through every collaborator call (the collaborators may be
stateful and answer differently every time) and records each call, with its
arguments, in a trace.  The `context.Context` argument, which every call
forwards unchanged, is left out.
-/

namespace action

/-! ## Errors -/

/-- Go `error` values that are not nil.  `external` stands for an error made by
a collaborator; the other constructors are the four ways `run.go` builds one:
`errors.Errorf` (kept as the format string and its arguments),
`errors.Wrapf`, `util.NewErrForbidden` and `util.NewErrBadRequest`. -/
inductive Error where
  | external (msg : String)
  | Errorf (format : String) (args : List String)
  | Wrapf (cause : Error) (msg : String)
  | ErrForbidden (cause : Error)
  | ErrBadRequest (cause : Error)
  deriving DecidableEq, Repr

/-- The constructor `util.NewErrForbidden`. -/
def NewErrForbidden (err : Error) : Error := Error.ErrForbidden err

/-- The constructor `util.NewErrBadRequest`. -/
def NewErrBadRequest (err : Error) : Error := Error.ErrBadRequest err

/-! ## Values exchanged with the run service -/

/-- The `*http.Response` of a remote call; only its identity matters here. -/
structure HttpResponse where
  StatusCode : Nat
  deriving DecidableEq, Repr

/-- The part of `types.RunConfig` that `run.go` reads. -/
structure RunConfig where
  Group : String
  deriving DecidableEq, Repr

/-- The run record `types.Run`; the handler never looks inside. -/
structure Run where
  ID : String
  deriving DecidableEq, Repr

/-- The response `rsapi.RunResponse`: the run and its configuration. -/
structure RunResponse where
  Run : Run
  RunConfig : RunConfig
  deriving DecidableEq, Repr

/-- The page `rsapi.GetRunsResponse`; the handler never looks inside. -/
structure GetRunsResponse where
  Runs : List String
  ChangeGroupsUpdateToken : String
  deriving DecidableEq, Repr

/-- Modelled from the spec: the constant `rsapi.RunActionTypeStop` of the run
service API, not part of this file; the spec calls it the action kind "stop". -/
def rsapi.RunActionTypeStop : String := "stop"

/-- Modelled from the spec: the constant `rsapi.RunTaskActionTypeApprove` of the
run service API, not part of this file; the spec calls it the action kind
"approve". -/
def rsapi.RunTaskActionTypeApprove : String := "approve"

/-- The fields of `rsapi.RunCreateRequest` that `RunAction` sets; every other
field keeps its zero value. -/
structure rsapi.RunCreateRequest where
  RunID : String
  FromStart : Bool
  deriving DecidableEq, Repr

/-- The fields of `rsapi.RunActionsRequest` that `RunAction` sets. -/
structure rsapi.RunActionsRequest where
  ActionType : String
  deriving DecidableEq, Repr

/-- The fields of `rsapi.RunTaskActionsRequest` that `RunTaskAction` sets. -/
structure rsapi.RunTaskActionsRequest where
  ActionType : String
  ApprovalAnnotations : List (String × String)
  deriving DecidableEq, Repr

/-! ## Collaborators -/

/-- What `runserviceClient.GetRun` returns: `(runResp, resp, err)`.  The run
and its `RunConfig` are pointers in the source, which the handler follows
without a nil test once `err` is nil; the client is taken to return both
whenever it returns no error. -/
structure GetRunResult where
  runResp : RunResponse
  resp : Option HttpResponse
  err : Option Error
  deriving DecidableEq, Repr

/-- What `runserviceClient.GetRuns` returns: `(runsResp, resp, err)`. -/
structure GetRunsResult where
  runsResp : Option GetRunsResponse
  resp : Option HttpResponse
  err : Option Error
  deriving DecidableEq, Repr

/-- What the other client calls return: `(resp, err)`. -/
structure RespResult where
  resp : Option HttpResponse
  err : Option Error
  deriving DecidableEq, Repr

/-- What a permission check returns: `(allowed, err)`. -/
structure AuthResult where
  allowed : Bool
  err : Option Error
  deriving DecidableEq, Repr

/-- The run service client, `h.runserviceClient`.  Each call takes the world
before the call and gives back the world after it. -/
structure RunserviceClient (σ : Type) where
  GetRun : String → σ → GetRunResult × σ
  GetRuns : List String → List String → Bool → List String → String → Int → Bool →
    σ → GetRunsResult × σ
  GetLogs : String → String → Bool → Int → Bool → Bool → σ → RespResult × σ
  CreateRun : rsapi.RunCreateRequest → σ → RespResult × σ
  RunActions : String → rsapi.RunActionsRequest → σ → RespResult × σ
  RunTaskActions : String → String → rsapi.RunTaskActionsRequest → σ → RespResult × σ

/-- The handler with what `run.go` uses of it: the run service client, the two
permission checks `h.CanGetRun` and `h.CanDoRunActions`, and the translation of
remote errors.

Modelled from the spec: `ErrFromRemote` is declared elsewhere in the package;
the spec describes it as a pure function from the remote response and the
remote error to a local error.  It is a parameter here, applied only to errors
that are not nil, and what it gives back is an error, never nil. -/
structure ActionHandler (σ : Type) where
  runserviceClient : RunserviceClient σ
  CanGetRun : String → σ → AuthResult × σ
  CanDoRunActions : String → σ → AuthResult × σ
  ErrFromRemote : Option HttpResponse → Error → Error

/-! ## Traces -/

/-- One call to a collaborator, with its arguments. -/
inductive Call where
  | GetRun (runID : String)
  | GetRuns (phaseFilter groups : List String) (lastRun : Bool) (changeGroups : List String)
      (startRunID : String) (limit : Int) (asc : Bool)
  | GetLogs (runID taskID : String) (setup : Bool) (step : Int) (follow stream : Bool)
  | CreateRun (req : rsapi.RunCreateRequest)
  | RunActions (runID : String) (req : rsapi.RunActionsRequest)
  | RunTaskActions (runID taskID : String) (req : rsapi.RunTaskActionsRequest)
  | CanGetRun (group : String)
  | CanDoRunActions (group : String)
  deriving DecidableEq, Repr

/-- A call to the run service client. -/
def Call.isRemote : Call → Bool
  | .GetRun _ => true
  | .GetRuns _ _ _ _ _ _ _ => true
  | .GetLogs _ _ _ _ _ _ => true
  | .CreateRun _ => true
  | .RunActions _ _ => true
  | .RunTaskActions _ _ _ => true
  | .CanGetRun _ => false
  | .CanDoRunActions _ => false

/-- A call to one of the two permission checks. -/
def Call.isAuth : Call → Bool
  | .CanGetRun _ => true
  | .CanDoRunActions _ => true
  | _ => false

/-- A call that an operation makes behind its permission check: the list, log,
create, run action and task action calls. -/
def Call.isGuarded : Call → Bool
  | .GetRuns _ _ _ _ _ _ _ => true
  | .GetLogs _ _ _ _ _ _ => true
  | .CreateRun _ => true
  | .RunActions _ _ => true
  | .RunTaskActions _ _ _ => true
  | _ => false

/-- A call that changes a run: create, run action, task action. -/
def Call.isMutating : Call → Bool
  | .CreateRun _ => true
  | .RunActions _ _ => true
  | .RunTaskActions _ _ _ => true
  | _ => false

/-- What one operation did: the value it returned, the collaborator calls it
made, in order, and the world it left. -/
structure Outcome (σ α : Type) where
  result : α
  trace : List Call
  world : σ

/-! ## The operations -/

/-- The function `(h *ActionHandler) GetRun`. -/
def GetRun {σ : Type} (h : ActionHandler σ) (runID : String) (w : σ) :
    Outcome σ (Except Error RunResponse) :=
  let r := h.runserviceClient.GetRun runID w
  match r.1.err with
  | some err => ⟨.error (h.ErrFromRemote r.1.resp err), [Call.GetRun runID], r.2⟩
  | none =>
    let a := h.CanGetRun r.1.runResp.RunConfig.Group r.2
    let t := [Call.GetRun runID, Call.CanGetRun r.1.runResp.RunConfig.Group]
    match a.1.err with
    | some err => ⟨.error (Error.Wrapf err "failed to determine permissions"), t, a.2⟩
    | none =>
      if !a.1.allowed then
        ⟨.error (NewErrForbidden (Error.Errorf "user not authorized" [])), t, a.2⟩
      else
        ⟨.ok r.1.runResp, t, a.2⟩

/-- The type `GetRunsRequest`. -/
structure GetRunsRequest where
  PhaseFilter : List String
  Group : String
  LastRun : Bool
  ChangeGroups : List String
  StartRunID : String
  Limit : Int
  Asc : Bool
  deriving DecidableEq, Repr

/-- The function `(h *ActionHandler) GetRuns`. -/
def GetRuns {σ : Type} (h : ActionHandler σ) (req : GetRunsRequest) (w : σ) :
    Outcome σ (Except Error (Option GetRunsResponse)) :=
  let a := h.CanGetRun req.Group w
  let t := [Call.CanGetRun req.Group]
  match a.1.err with
  | some err => ⟨.error (Error.Wrapf err "failed to determine permissions"), t, a.2⟩
  | none =>
    if !a.1.allowed then
      ⟨.error (NewErrForbidden (Error.Errorf "user not authorized" [])), t, a.2⟩
    else
      let groups := [req.Group]
      let r := h.runserviceClient.GetRuns req.PhaseFilter groups req.LastRun req.ChangeGroups
        req.StartRunID req.Limit req.Asc a.2
      let t2 := t ++ [Call.GetRuns req.PhaseFilter groups req.LastRun req.ChangeGroups
        req.StartRunID req.Limit req.Asc]
      match r.1.err with
      | some err => ⟨.error (h.ErrFromRemote r.1.resp err), t2, r.2⟩
      | none => ⟨.ok r.1.runsResp, t2, r.2⟩

/-- The type `GetLogsRequest`. -/
structure GetLogsRequest where
  RunID : String
  TaskID : String
  Setup : Bool
  Step : Int
  Follow : Bool
  Stream : Bool
  deriving DecidableEq, Repr

/-- The function `(h *ActionHandler) GetLogs`. -/
def GetLogs {σ : Type} (h : ActionHandler σ) (req : GetLogsRequest) (w : σ) :
    Outcome σ (Except Error (Option HttpResponse)) :=
  let r := h.runserviceClient.GetRun req.RunID w
  match r.1.err with
  | some err => ⟨.error (h.ErrFromRemote r.1.resp err), [Call.GetRun req.RunID], r.2⟩
  | none =>
    let a := h.CanGetRun r.1.runResp.RunConfig.Group r.2
    let t := [Call.GetRun req.RunID, Call.CanGetRun r.1.runResp.RunConfig.Group]
    match a.1.err with
    | some err => ⟨.error (Error.Wrapf err "failed to determine permissions"), t, a.2⟩
    | none =>
      if !a.1.allowed then
        ⟨.error (NewErrForbidden (Error.Errorf "user not authorized" [])), t, a.2⟩
      else
        let l := h.runserviceClient.GetLogs req.RunID req.TaskID req.Setup req.Step
          req.Follow req.Stream a.2
        let t2 := t ++ [Call.GetLogs req.RunID req.TaskID req.Setup req.Step
          req.Follow req.Stream]
        match l.1.err with
        | some err => ⟨.error (h.ErrFromRemote l.1.resp err), t2, l.2⟩
        | none => ⟨.ok l.1.resp, t2, l.2⟩

/-- The type `RunActionType`. -/
abbrev RunActionType := String

/-- The constant `RunActionTypeRestart`. -/
def RunActionTypeRestart : RunActionType := "restart"

/-- The constant `RunActionTypeStop`. -/
def RunActionTypeStop : RunActionType := "stop"

/-- The type `RunActionsRequest`. -/
structure RunActionsRequest where
  RunID : String
  ActionType : RunActionType
  FromStart : Bool
  deriving DecidableEq, Repr

/-- The function `(h *ActionHandler) RunAction`; `none` is the nil error. -/
def RunAction {σ : Type} (h : ActionHandler σ) (req : RunActionsRequest) (w : σ) :
    Outcome σ (Option Error) :=
  let r := h.runserviceClient.GetRun req.RunID w
  match r.1.err with
  | some err => ⟨some (h.ErrFromRemote r.1.resp err), [Call.GetRun req.RunID], r.2⟩
  | none =>
    let a := h.CanDoRunActions r.1.runResp.RunConfig.Group r.2
    let t := [Call.GetRun req.RunID, Call.CanDoRunActions r.1.runResp.RunConfig.Group]
    match a.1.err with
    | some err => ⟨some (Error.Wrapf err "failed to determine permissions"), t, a.2⟩
    | none =>
      if !a.1.allowed then
        ⟨some (NewErrForbidden (Error.Errorf "user not authorized" [])), t, a.2⟩
      else if req.ActionType = RunActionTypeRestart then
        let rsreq : rsapi.RunCreateRequest := { RunID := req.RunID, FromStart := req.FromStart }
        let c := h.runserviceClient.CreateRun rsreq a.2
        let t2 := t ++ [Call.CreateRun rsreq]
        match c.1.err with
        | some err => ⟨some (h.ErrFromRemote c.1.resp err), t2, c.2⟩
        | none => ⟨none, t2, c.2⟩
      else if req.ActionType = RunActionTypeStop then
        let rsreq : rsapi.RunActionsRequest := { ActionType := rsapi.RunActionTypeStop }
        let c := h.runserviceClient.RunActions req.RunID rsreq a.2
        let t2 := t ++ [Call.RunActions req.RunID rsreq]
        match c.1.err with
        | some err => ⟨some (h.ErrFromRemote c.1.resp err), t2, c.2⟩
        | none => ⟨none, t2, c.2⟩
      else
        ⟨some (NewErrBadRequest (Error.Errorf "wrong run action type %q" [req.ActionType])),
          t, a.2⟩

/-- The type `RunTaskActionType`. -/
abbrev RunTaskActionType := String

/-- The constant `RunTaskActionTypeApprove`. -/
def RunTaskActionTypeApprove : RunTaskActionType := "approve"

/-- The type `RunTaskActionsRequest`. -/
structure RunTaskActionsRequest where
  RunID : String
  TaskID : String
  ActionType : RunTaskActionType
  ApprovalAnnotations : List (String × String)
  deriving DecidableEq, Repr

/-- The function `(h *ActionHandler) RunTaskAction`; `none` is the nil error. -/
def RunTaskAction {σ : Type} (h : ActionHandler σ) (req : RunTaskActionsRequest) (w : σ) :
    Outcome σ (Option Error) :=
  let r := h.runserviceClient.GetRun req.RunID w
  match r.1.err with
  | some err => ⟨some (h.ErrFromRemote r.1.resp err), [Call.GetRun req.RunID], r.2⟩
  | none =>
    let a := h.CanDoRunActions r.1.runResp.RunConfig.Group r.2
    let t := [Call.GetRun req.RunID, Call.CanDoRunActions r.1.runResp.RunConfig.Group]
    match a.1.err with
    | some err => ⟨some (Error.Wrapf err "failed to determine permissions"), t, a.2⟩
    | none =>
      if !a.1.allowed then
        ⟨some (NewErrForbidden (Error.Errorf "user not authorized" [])), t, a.2⟩
      else if req.ActionType = RunTaskActionTypeApprove then
        let rsreq : rsapi.RunTaskActionsRequest :=
          { ActionType := rsapi.RunTaskActionTypeApprove,
            ApprovalAnnotations := req.ApprovalAnnotations }
        let c := h.runserviceClient.RunTaskActions req.RunID req.TaskID rsreq a.2
        let t2 := t ++ [Call.RunTaskActions req.RunID req.TaskID rsreq]
        match c.1.err with
        | some err => ⟨some (h.ErrFromRemote c.1.resp err), t2, c.2⟩
        | none => ⟨none, t2, c.2⟩
      else
        ⟨some (NewErrBadRequest (Error.Errorf "wrong run task action type %q"
          [req.ActionType])), t, a.2⟩

/-! ## Concrete collaborators

A run service and a permission engine whose answers are fixed in advance.  The
world is the number of collaborator calls made so far. -/

/-- A run service client that answers every fetch with `fetched`, every list
call with `listed` and every other call with `acted`. -/
def stubClient (fetched : GetRunResult) (listed : GetRunsResult) (acted : RespResult) :
    RunserviceClient Nat where
  GetRun := fun _ n => (fetched, n + 1)
  GetRuns := fun _ _ _ _ _ _ _ n => (listed, n + 1)
  GetLogs := fun _ _ _ _ _ _ n => (acted, n + 1)
  CreateRun := fun _ n => (acted, n + 1)
  RunActions := fun _ _ n => (acted, n + 1)
  RunTaskActions := fun _ _ _ n => (acted, n + 1)

/-- A translation of remote errors that keeps the status code of the response
next to the remote error. -/
def stubErrFromRemote : Option HttpResponse → Error → Error
  | some resp, err => Error.Wrapf err (toString resp.StatusCode)
  | none, err => err

/-- A handler over `stubClient` whose two permission checks both answer
`auth`. -/
def stubHandler (fetched : GetRunResult) (listed : GetRunsResult) (acted : RespResult)
    (auth : AuthResult) : ActionHandler Nat where
  runserviceClient := stubClient fetched listed acted
  CanGetRun := fun _ n => (auth, n + 1)
  CanDoRunActions := fun _ n => (auth, n + 1)
  ErrFromRemote := stubErrFromRemote

/-- The run "r1" of group "g1". -/
def runR1 : RunResponse := { Run := { ID := "r1" }, RunConfig := { Group := "g1" } }

/-- A fetch that succeeds with `runR1`. -/
def fetchOk : GetRunResult := { runResp := runR1, resp := some ⟨200⟩, err := none }

/-- A fetch that fails with status 404. -/
def fetchFailed : GetRunResult :=
  { runResp := { Run := { ID := "" }, RunConfig := { Group := "" } },
    resp := some ⟨404⟩, err := some (Error.external "run not found") }

/-- A page with the single run "r1". -/
def pageOk : GetRunsResult :=
  { runsResp := some { Runs := ["r1"], ChangeGroupsUpdateToken := "t0" },
    resp := some ⟨200⟩, err := none }

/-- A remote call that succeeds. -/
def actOk : RespResult := { resp := some ⟨200⟩, err := none }

/-- A remote call that fails with status 500. -/
def actFailed : RespResult := { resp := some ⟨500⟩, err := some (Error.external "boom") }

/-! ## Fetch failures -/

/-- C2: when the remote fetch of the run returns an error, `GetRun`, `GetLogs`,
`RunAction` and `RunTaskAction` each return exactly `ErrFromRemote(resp, err)`
for the response and error of that fetch, and the fetch is the only call in the
trace: neither permission check is called and no other remote call is made. -/
theorem C2_fetch_error_is_translated {σ : Type} (h : ActionHandler σ) (w w1 : σ)
    (runID : String) (run : RunResponse) (resp : Option HttpResponse) (err : Error)
    (hfetch : h.runserviceClient.GetRun runID w = (⟨run, resp, some err⟩, w1)) :
    GetRun h runID w = ⟨.error (h.ErrFromRemote resp err), [Call.GetRun runID], w1⟩ ∧
    (∀ req : GetLogsRequest, req.RunID = runID →
      GetLogs h req w = ⟨.error (h.ErrFromRemote resp err), [Call.GetRun runID], w1⟩) ∧
    (∀ req : RunActionsRequest, req.RunID = runID →
      RunAction h req w = ⟨some (h.ErrFromRemote resp err), [Call.GetRun runID], w1⟩) ∧
    (∀ req : RunTaskActionsRequest, req.RunID = runID →
      RunTaskAction h req w = ⟨some (h.ErrFromRemote resp err), [Call.GetRun runID], w1⟩) := by
  refine ⟨?_, ?_, ?_, ?_⟩
  · simp [GetRun, hfetch]
  · intro req hreq
    subst hreq
    simp [GetLogs, hfetch]
  · intro req hreq
    subst hreq
    simp [RunAction, hfetch]
  · intro req hreq
    subst hreq
    simp [RunTaskAction, hfetch]

/-- The fetch of "r1" fails with status 404: all four operations return the
translation of that failure after the fetch alone, whatever the permission
checks would have answered. -/
theorem C2_fetch_error_is_translated_witness :
    GetRun (stubHandler fetchFailed pageOk actOk ⟨true, none⟩) "r1" 0
      = ⟨.error (Error.Wrapf (Error.external "run not found") "404"), [Call.GetRun "r1"], 1⟩ ∧
    GetLogs (stubHandler fetchFailed pageOk actOk ⟨true, none⟩) ⟨"r1", "t1", false, 0, false, false⟩ 0
      = ⟨.error (Error.Wrapf (Error.external "run not found") "404"), [Call.GetRun "r1"], 1⟩ ∧
    RunAction (stubHandler fetchFailed pageOk actOk ⟨true, none⟩) ⟨"r1", "stop", false⟩ 0
      = ⟨some (Error.Wrapf (Error.external "run not found") "404"), [Call.GetRun "r1"], 1⟩ ∧
    RunTaskAction (stubHandler fetchFailed pageOk actOk ⟨true, none⟩) ⟨"r1", "t1", "approve", []⟩ 0
      = ⟨some (Error.Wrapf (Error.external "run not found") "404"), [Call.GetRun "r1"], 1⟩ :=
  have key := C2_fetch_error_is_translated (stubHandler fetchFailed pageOk actOk ⟨true, none⟩)
    0 1 "r1" fetchFailed.runResp (some ⟨404⟩) (Error.external "run not found") rfl
  ⟨key.1, key.2.1 ⟨"r1", "t1", false, 0, false, false⟩ rfl, key.2.2.1 ⟨"r1", "stop", false⟩ rfl,
    key.2.2.2 ⟨"r1", "t1", "approve", []⟩ rfl⟩

/-! ## Denied requests -/

/-- C1: when the permission check of an operation answers "not allowed" with no
error ("can view" on the fetched run's group for `GetRun` and `GetLogs`, "can
view" on `req.Group` for `GetRuns`, "can perform run actions" on the fetched
run's group for `RunAction` and `RunTaskAction`), the operation returns the
forbidden error "user not authorized" and the permission check is the last call
of the trace: no list, log, create, run action or task action call is in it.
For `GetRuns` the trace holds no call to the run service client at all. -/
theorem C1_denied_is_forbidden {σ : Type} (h : ActionHandler σ) (w : σ) :
    (∀ (runID : String) (run : RunResponse) (resp : Option HttpResponse) (w1 w2 : σ),
      h.runserviceClient.GetRun runID w = (⟨run, resp, none⟩, w1) →
      h.CanGetRun run.RunConfig.Group w1 = (⟨false, none⟩, w2) →
      GetRun h runID w = ⟨.error (NewErrForbidden (Error.Errorf "user not authorized" [])),
        [Call.GetRun runID, Call.CanGetRun run.RunConfig.Group], w2⟩ ∧
      ∀ c ∈ (GetRun h runID w).trace, c.isGuarded = false) ∧
    (∀ (req : GetLogsRequest) (run : RunResponse) (resp : Option HttpResponse) (w1 w2 : σ),
      h.runserviceClient.GetRun req.RunID w = (⟨run, resp, none⟩, w1) →
      h.CanGetRun run.RunConfig.Group w1 = (⟨false, none⟩, w2) →
      GetLogs h req w = ⟨.error (NewErrForbidden (Error.Errorf "user not authorized" [])),
        [Call.GetRun req.RunID, Call.CanGetRun run.RunConfig.Group], w2⟩ ∧
      ∀ c ∈ (GetLogs h req w).trace, c.isGuarded = false) ∧
    (∀ (req : RunActionsRequest) (run : RunResponse) (resp : Option HttpResponse) (w1 w2 : σ),
      h.runserviceClient.GetRun req.RunID w = (⟨run, resp, none⟩, w1) →
      h.CanDoRunActions run.RunConfig.Group w1 = (⟨false, none⟩, w2) →
      RunAction h req w = ⟨some (NewErrForbidden (Error.Errorf "user not authorized" [])),
        [Call.GetRun req.RunID, Call.CanDoRunActions run.RunConfig.Group], w2⟩ ∧
      ∀ c ∈ (RunAction h req w).trace, c.isGuarded = false) ∧
    (∀ (req : RunTaskActionsRequest) (run : RunResponse) (resp : Option HttpResponse)
        (w1 w2 : σ),
      h.runserviceClient.GetRun req.RunID w = (⟨run, resp, none⟩, w1) →
      h.CanDoRunActions run.RunConfig.Group w1 = (⟨false, none⟩, w2) →
      RunTaskAction h req w = ⟨some (NewErrForbidden (Error.Errorf "user not authorized" [])),
        [Call.GetRun req.RunID, Call.CanDoRunActions run.RunConfig.Group], w2⟩ ∧
      ∀ c ∈ (RunTaskAction h req w).trace, c.isGuarded = false) ∧
    (∀ (req : GetRunsRequest) (w1 : σ),
      h.CanGetRun req.Group w = (⟨false, none⟩, w1) →
      GetRuns h req w = ⟨.error (NewErrForbidden (Error.Errorf "user not authorized" [])),
        [Call.CanGetRun req.Group], w1⟩ ∧
      ∀ c ∈ (GetRuns h req w).trace, c.isRemote = false) := by
  refine ⟨?_, ?_, ?_, ?_, ?_⟩
  · intro runID run resp w1 w2 hfetch hauth
    have e : GetRun h runID w = ⟨.error (NewErrForbidden (Error.Errorf "user not authorized" [])),
        [Call.GetRun runID, Call.CanGetRun run.RunConfig.Group], w2⟩ := by
      simp [GetRun, hfetch, hauth]
    refine ⟨e, ?_⟩
    rw [e]
    simp [Call.isGuarded]
  · intro req run resp w1 w2 hfetch hauth
    have e : GetLogs h req w = ⟨.error (NewErrForbidden (Error.Errorf "user not authorized" [])),
        [Call.GetRun req.RunID, Call.CanGetRun run.RunConfig.Group], w2⟩ := by
      simp [GetLogs, hfetch, hauth]
    refine ⟨e, ?_⟩
    rw [e]
    simp [Call.isGuarded]
  · intro req run resp w1 w2 hfetch hauth
    have e : RunAction h req w = ⟨some (NewErrForbidden (Error.Errorf "user not authorized" [])),
        [Call.GetRun req.RunID, Call.CanDoRunActions run.RunConfig.Group], w2⟩ := by
      simp [RunAction, hfetch, hauth]
    refine ⟨e, ?_⟩
    rw [e]
    simp [Call.isGuarded]
  · intro req run resp w1 w2 hfetch hauth
    have e : RunTaskAction h req w
        = ⟨some (NewErrForbidden (Error.Errorf "user not authorized" [])),
          [Call.GetRun req.RunID, Call.CanDoRunActions run.RunConfig.Group], w2⟩ := by
      simp [RunTaskAction, hfetch, hauth]
    refine ⟨e, ?_⟩
    rw [e]
    simp [Call.isGuarded]
  · intro req w1 hauth
    have e : GetRuns h req w = ⟨.error (NewErrForbidden (Error.Errorf "user not authorized" [])),
        [Call.CanGetRun req.Group], w1⟩ := by
      simp [GetRuns, hauth]
    refine ⟨e, ?_⟩
    rw [e]
    simp [Call.isRemote]

/-- The permission engine denies everything: the fetch of "r1" (group "g1")
succeeds and each operation stops at the check with the forbidden error;
`GetRuns{Group:"g1", Limit:10, Asc:true}` stops before any remote call. -/
theorem C1_denied_is_forbidden_witness :
    GetRun (stubHandler fetchOk pageOk actOk ⟨false, none⟩) "r1" 0
      = ⟨.error (Error.ErrForbidden (Error.Errorf "user not authorized" [])),
        [Call.GetRun "r1", Call.CanGetRun "g1"], 2⟩ ∧
    GetLogs (stubHandler fetchOk pageOk actOk ⟨false, none⟩) ⟨"r1", "t1", false, 0, false, false⟩ 0
      = ⟨.error (Error.ErrForbidden (Error.Errorf "user not authorized" [])),
        [Call.GetRun "r1", Call.CanGetRun "g1"], 2⟩ ∧
    RunAction (stubHandler fetchOk pageOk actOk ⟨false, none⟩) ⟨"r1", "restart", true⟩ 0
      = ⟨some (Error.ErrForbidden (Error.Errorf "user not authorized" [])),
        [Call.GetRun "r1", Call.CanDoRunActions "g1"], 2⟩ ∧
    RunTaskAction (stubHandler fetchOk pageOk actOk ⟨false, none⟩) ⟨"r1", "t1", "approve", []⟩ 0
      = ⟨some (Error.ErrForbidden (Error.Errorf "user not authorized" [])),
        [Call.GetRun "r1", Call.CanDoRunActions "g1"], 2⟩ ∧
    GetRuns (stubHandler fetchOk pageOk actOk ⟨false, none⟩) ⟨[], "g1", false, [], "", 10, true⟩ 0
      = ⟨.error (Error.ErrForbidden (Error.Errorf "user not authorized" [])),
        [Call.CanGetRun "g1"], 1⟩ :=
  have key := C1_denied_is_forbidden (stubHandler fetchOk pageOk actOk ⟨false, none⟩) 0
  ⟨(key.1 "r1" runR1 (some ⟨200⟩) 1 2 rfl rfl).1,
    (key.2.1 ⟨"r1", "t1", false, 0, false, false⟩ runR1 (some ⟨200⟩) 1 2 rfl rfl).1,
    (key.2.2.1 ⟨"r1", "restart", true⟩ runR1 (some ⟨200⟩) 1 2 rfl rfl).1,
    (key.2.2.2.1 ⟨"r1", "t1", "approve", []⟩ runR1 (some ⟨200⟩) 1 2 rfl rfl).1,
    (key.2.2.2.2 ⟨[], "g1", false, [], "", 10, true⟩ 1 rfl).1⟩

/-! ## Listing runs -/

/-- C7: when "can view" on `req.Group` is granted, `GetRuns` calls the remote
list operation exactly once, with the request's `PhaseFilter`, `LastRun`,
`ChangeGroups`, `StartRunID`, `Limit` and `Asc` unchanged and with the group
list `[req.Group]`; it returns the remote page as it is when that call has no
error and `ErrFromRemote(resp, err)` when it has one. -/
theorem C7_GetRuns_forwards {σ : Type} (h : ActionHandler σ) (req : GetRunsRequest)
    (w w1 w2 : σ) (r : GetRunsResult)
    (hauth : h.CanGetRun req.Group w = (⟨true, none⟩, w1))
    (hlist : h.runserviceClient.GetRuns req.PhaseFilter [req.Group] req.LastRun
      req.ChangeGroups req.StartRunID req.Limit req.Asc w1 = (r, w2)) :
    (GetRuns h req w).trace = [Call.CanGetRun req.Group,
      Call.GetRuns req.PhaseFilter [req.Group] req.LastRun req.ChangeGroups req.StartRunID
        req.Limit req.Asc] ∧
    (GetRuns h req w).trace.filter Call.isRemote =
      [Call.GetRuns req.PhaseFilter [req.Group] req.LastRun req.ChangeGroups req.StartRunID
        req.Limit req.Asc] ∧
    (r.err = none → (GetRuns h req w).result = .ok r.runsResp) ∧
    (∀ err, r.err = some err →
      (GetRuns h req w).result = .error (h.ErrFromRemote r.resp err)) ∧
    (GetRuns h req w).world = w2 := by
  rcases r with ⟨page, resp, _ | err⟩ <;>
    simp [GetRuns, hauth, hlist, Call.isRemote]

/-- The query `GetRuns{Group:"g1", Limit:10, Asc:true}` with the view granted:
one list call scoped to `["g1"]`, and the page comes back as the run service
sent it. -/
theorem C7_GetRuns_forwards_witness :
    (GetRuns (stubHandler fetchOk pageOk actOk ⟨true, none⟩)
        ⟨["running"], "g1", true, ["cg"], "r0", 10, true⟩ 0).trace
      = [Call.CanGetRun "g1", Call.GetRuns ["running"] ["g1"] true ["cg"] "r0" 10 true] ∧
    (GetRuns (stubHandler fetchOk pageOk actOk ⟨true, none⟩)
        ⟨["running"], "g1", true, ["cg"], "r0", 10, true⟩ 0).result
      = .ok (some ⟨["r1"], "t0"⟩) :=
  have key := C7_GetRuns_forwards (stubHandler fetchOk pageOk actOk ⟨true, none⟩)
    ⟨["running"], "g1", true, ["cg"], "r0", 10, true⟩ 0 1 2 pageOk rfl rfl
  ⟨key.1, key.2.2.1 rfl⟩

/-! ## Failures of the permission check -/

/-- C8: when the permission check of an operation returns an error, whatever
boolean comes with it, the operation returns that error wrapped with "failed to
determine permissions" and the check is the last call of the trace.  The
wrapped error is not the forbidden error, is not a bad request, and is not a
translation of a remote error: the operation returns the same outcome whatever
the translation `ErrFromRemote` is. -/
theorem C8_permission_error_is_internal {σ : Type} (h : ActionHandler σ) (w : σ)
    (cause : Error) (b : Bool) :
    (Error.Wrapf cause "failed to determine permissions"
        ≠ NewErrForbidden (Error.Errorf "user not authorized" []) ∧
      ∀ e, Error.Wrapf cause "failed to determine permissions" ≠ NewErrBadRequest e) ∧
    (∀ (runID : String) (run : RunResponse) (resp : Option HttpResponse) (w1 w2 : σ),
      h.runserviceClient.GetRun runID w = (⟨run, resp, none⟩, w1) →
      h.CanGetRun run.RunConfig.Group w1 = (⟨b, some cause⟩, w2) →
      ∀ f, GetRun { h with ErrFromRemote := f } runID w
        = ⟨.error (Error.Wrapf cause "failed to determine permissions"),
          [Call.GetRun runID, Call.CanGetRun run.RunConfig.Group], w2⟩) ∧
    (∀ (req : GetLogsRequest) (run : RunResponse) (resp : Option HttpResponse) (w1 w2 : σ),
      h.runserviceClient.GetRun req.RunID w = (⟨run, resp, none⟩, w1) →
      h.CanGetRun run.RunConfig.Group w1 = (⟨b, some cause⟩, w2) →
      ∀ f, GetLogs { h with ErrFromRemote := f } req w
        = ⟨.error (Error.Wrapf cause "failed to determine permissions"),
          [Call.GetRun req.RunID, Call.CanGetRun run.RunConfig.Group], w2⟩) ∧
    (∀ (req : RunActionsRequest) (run : RunResponse) (resp : Option HttpResponse) (w1 w2 : σ),
      h.runserviceClient.GetRun req.RunID w = (⟨run, resp, none⟩, w1) →
      h.CanDoRunActions run.RunConfig.Group w1 = (⟨b, some cause⟩, w2) →
      ∀ f, RunAction { h with ErrFromRemote := f } req w
        = ⟨some (Error.Wrapf cause "failed to determine permissions"),
          [Call.GetRun req.RunID, Call.CanDoRunActions run.RunConfig.Group], w2⟩) ∧
    (∀ (req : RunTaskActionsRequest) (run : RunResponse) (resp : Option HttpResponse)
        (w1 w2 : σ),
      h.runserviceClient.GetRun req.RunID w = (⟨run, resp, none⟩, w1) →
      h.CanDoRunActions run.RunConfig.Group w1 = (⟨b, some cause⟩, w2) →
      ∀ f, RunTaskAction { h with ErrFromRemote := f } req w
        = ⟨some (Error.Wrapf cause "failed to determine permissions"),
          [Call.GetRun req.RunID, Call.CanDoRunActions run.RunConfig.Group], w2⟩) ∧
    (∀ (req : GetRunsRequest) (w1 : σ),
      h.CanGetRun req.Group w = (⟨b, some cause⟩, w1) →
      ∀ f, GetRuns { h with ErrFromRemote := f } req w
        = ⟨.error (Error.Wrapf cause "failed to determine permissions"),
          [Call.CanGetRun req.Group], w1⟩) := by
  refine ⟨⟨?_, ?_⟩, ?_, ?_, ?_, ?_, ?_⟩
  · simp [NewErrForbidden]
  · intro e
    simp [NewErrBadRequest]
  · intro runID run resp w1 w2 hfetch hauth f
    simp [GetRun, hfetch, hauth]
  · intro req run resp w1 w2 hfetch hauth f
    simp [GetLogs, hfetch, hauth]
  · intro req run resp w1 w2 hfetch hauth f
    simp [RunAction, hfetch, hauth]
  · intro req run resp w1 w2 hfetch hauth f
    simp [RunTaskAction, hfetch, hauth]
  · intro req w1 hauth f
    simp [GetRuns, hauth]

/-- The permission engine fails with "store down" while answering `true`: each
operation returns the wrapped failure and stops at the check. -/
theorem C8_permission_error_is_internal_witness :
    GetRun (stubHandler fetchOk pageOk actOk ⟨true, some (Error.external "store down")⟩) "r1" 0
      = ⟨.error (Error.Wrapf (Error.external "store down") "failed to determine permissions"),
        [Call.GetRun "r1", Call.CanGetRun "g1"], 2⟩ ∧
    GetLogs (stubHandler fetchOk pageOk actOk ⟨true, some (Error.external "store down")⟩)
        ⟨"r1", "t1", false, 0, false, false⟩ 0
      = ⟨.error (Error.Wrapf (Error.external "store down") "failed to determine permissions"),
        [Call.GetRun "r1", Call.CanGetRun "g1"], 2⟩ ∧
    RunAction (stubHandler fetchOk pageOk actOk ⟨true, some (Error.external "store down")⟩)
        ⟨"r1", "stop", false⟩ 0
      = ⟨some (Error.Wrapf (Error.external "store down") "failed to determine permissions"),
        [Call.GetRun "r1", Call.CanDoRunActions "g1"], 2⟩ ∧
    RunTaskAction (stubHandler fetchOk pageOk actOk ⟨true, some (Error.external "store down")⟩)
        ⟨"r1", "t1", "approve", []⟩ 0
      = ⟨some (Error.Wrapf (Error.external "store down") "failed to determine permissions"),
        [Call.GetRun "r1", Call.CanDoRunActions "g1"], 2⟩ ∧
    GetRuns (stubHandler fetchOk pageOk actOk ⟨true, some (Error.external "store down")⟩)
        ⟨[], "g1", false, [], "", 10, true⟩ 0
      = ⟨.error (Error.Wrapf (Error.external "store down") "failed to determine permissions"),
        [Call.CanGetRun "g1"], 1⟩ :=
  have key := C8_permission_error_is_internal
    (stubHandler fetchOk pageOk actOk ⟨true, some (Error.external "store down")⟩) 0
    (Error.external "store down") true
  ⟨key.2.1 "r1" runR1 (some ⟨200⟩) 1 2 rfl rfl stubErrFromRemote,
    key.2.2.1 ⟨"r1", "t1", false, 0, false, false⟩ runR1 (some ⟨200⟩) 1 2 rfl rfl
      stubErrFromRemote,
    key.2.2.2.1 ⟨"r1", "stop", false⟩ runR1 (some ⟨200⟩) 1 2 rfl rfl stubErrFromRemote,
    key.2.2.2.2.1 ⟨"r1", "t1", "approve", []⟩ runR1 (some ⟨200⟩) 1 2 rfl rfl stubErrFromRemote,
    key.2.2.2.2.2 ⟨[], "g1", false, [], "", 10, true⟩ 1 rfl stubErrFromRemote⟩

/-! ## Dispatch of granted actions -/

/-- C5: a `RunAction` request with action type "restart", whose run fetch
succeeds and whose run-action check is granted, makes exactly one `CreateRun`
call, carrying the request's `RunID` and `FromStart`, and no `RunActions`
call; it returns nil exactly when that call has no error, and
`ErrFromRemote(resp, err)` of that call otherwise. -/
theorem C5_restart_creates_run {σ : Type} (h : ActionHandler σ) (req : RunActionsRequest)
    (w w1 w2 w3 : σ) (run : RunResponse) (resp : Option HttpResponse) (c : RespResult)
    (htype : req.ActionType = RunActionTypeRestart)
    (hfetch : h.runserviceClient.GetRun req.RunID w = (⟨run, resp, none⟩, w1))
    (hauth : h.CanDoRunActions run.RunConfig.Group w1 = (⟨true, none⟩, w2))
    (hcreate : h.runserviceClient.CreateRun ⟨req.RunID, req.FromStart⟩ w2 = (c, w3)) :
    (RunAction h req w).trace = [Call.GetRun req.RunID,
      Call.CanDoRunActions run.RunConfig.Group, Call.CreateRun ⟨req.RunID, req.FromStart⟩] ∧
    (RunAction h req w).trace.filter Call.isMutating
      = [Call.CreateRun ⟨req.RunID, req.FromStart⟩] ∧
    ((RunAction h req w).result = none ↔ c.err = none) ∧
    (∀ err, c.err = some err →
      (RunAction h req w).result = some (h.ErrFromRemote c.resp err)) ∧
    (RunAction h req w).world = w3 := by
  rcases c with ⟨cresp, _ | err⟩ <;>
    simp [RunAction, htype, hfetch, hauth, hcreate, Call.isMutating]

/-- The request `RunAction{RunID:"r1", ActionType:"restart", FromStart:true}` on
a run of group "g1" with the action granted: one `CreateRun("r1", true)` call,
and nil comes back because that call succeeds. -/
theorem C5_restart_creates_run_witness :
    (RunAction (stubHandler fetchOk pageOk actOk ⟨true, none⟩) ⟨"r1", "restart", true⟩ 0).trace
      = [Call.GetRun "r1", Call.CanDoRunActions "g1", Call.CreateRun ⟨"r1", true⟩] ∧
    (RunAction (stubHandler fetchOk pageOk actOk ⟨true, none⟩) ⟨"r1", "restart", true⟩ 0).result
      = none :=
  have key := C5_restart_creates_run (stubHandler fetchOk pageOk actOk ⟨true, none⟩)
    ⟨"r1", "restart", true⟩ 0 1 2 3 runR1 (some ⟨200⟩) actOk rfl rfl rfl rfl
  ⟨key.1, key.2.2.1.mpr rfl⟩

/-- C6: a `RunAction` request with action type "stop", whose run fetch succeeds
and whose run-action check is granted, makes exactly one `RunActions` call, for
the request's `RunID` and with action kind "stop", and no `CreateRun` call; it
returns nil exactly when that call has no error, and `ErrFromRemote(resp, err)`
of that call otherwise. -/
theorem C6_stop_sends_run_action {σ : Type} (h : ActionHandler σ) (req : RunActionsRequest)
    (w w1 w2 w3 : σ) (run : RunResponse) (resp : Option HttpResponse) (c : RespResult)
    (htype : req.ActionType = RunActionTypeStop)
    (hfetch : h.runserviceClient.GetRun req.RunID w = (⟨run, resp, none⟩, w1))
    (hauth : h.CanDoRunActions run.RunConfig.Group w1 = (⟨true, none⟩, w2))
    (hstop : h.runserviceClient.RunActions req.RunID ⟨"stop"⟩ w2 = (c, w3)) :
    (RunAction h req w).trace = [Call.GetRun req.RunID,
      Call.CanDoRunActions run.RunConfig.Group, Call.RunActions req.RunID ⟨"stop"⟩] ∧
    (RunAction h req w).trace.filter Call.isMutating = [Call.RunActions req.RunID ⟨"stop"⟩] ∧
    ((RunAction h req w).result = none ↔ c.err = none) ∧
    (∀ err, c.err = some err →
      (RunAction h req w).result = some (h.ErrFromRemote c.resp err)) ∧
    (RunAction h req w).world = w3 := by
  have hne : RunActionTypeStop ≠ RunActionTypeRestart := by decide
  rcases c with ⟨cresp, _ | err⟩ <;>
    simp [RunAction, htype, hne, hfetch, hauth, hstop, Call.isMutating,
      rsapi.RunActionTypeStop]

/-- The request `RunAction{RunID:"r1", ActionType:"stop"}` with the action
granted and a run service whose `RunActions` fails with status 500: one
`RunActions("r1", "stop")` call, and its translated error comes back. -/
theorem C6_stop_sends_run_action_witness :
    (RunAction (stubHandler fetchOk pageOk actFailed ⟨true, none⟩) ⟨"r1", "stop", false⟩ 0).trace
      = [Call.GetRun "r1", Call.CanDoRunActions "g1", Call.RunActions "r1" ⟨"stop"⟩] ∧
    (RunAction (stubHandler fetchOk pageOk actFailed ⟨true, none⟩) ⟨"r1", "stop", false⟩ 0).result
      = some (Error.Wrapf (Error.external "boom") "500") :=
  have key := C6_stop_sends_run_action (stubHandler fetchOk pageOk actFailed ⟨true, none⟩)
    ⟨"r1", "stop", false⟩ 0 1 2 3 runR1 (some ⟨200⟩) actFailed rfl rfl rfl rfl
  ⟨key.1, key.2.2.2.1 (Error.external "boom") rfl⟩

/-- C10: a `RunTaskAction` request with action type "approve", whose run fetch
succeeds and whose run-action check is granted, makes exactly one
`RunTaskActions` call, for the request's `RunID` and `TaskID`, with action kind
"approve" and the request's `ApprovalAnnotations` unchanged; it returns nil
exactly when that call has no error, and `ErrFromRemote(resp, err)` of that
call otherwise. -/
theorem C10_approve_sends_task_action {σ : Type} (h : ActionHandler σ)
    (req : RunTaskActionsRequest) (w w1 w2 w3 : σ) (run : RunResponse)
    (resp : Option HttpResponse) (c : RespResult)
    (htype : req.ActionType = RunTaskActionTypeApprove)
    (hfetch : h.runserviceClient.GetRun req.RunID w = (⟨run, resp, none⟩, w1))
    (hauth : h.CanDoRunActions run.RunConfig.Group w1 = (⟨true, none⟩, w2))
    (hact : h.runserviceClient.RunTaskActions req.RunID req.TaskID
      ⟨"approve", req.ApprovalAnnotations⟩ w2 = (c, w3)) :
    (RunTaskAction h req w).trace = [Call.GetRun req.RunID,
      Call.CanDoRunActions run.RunConfig.Group,
      Call.RunTaskActions req.RunID req.TaskID ⟨"approve", req.ApprovalAnnotations⟩] ∧
    (RunTaskAction h req w).trace.filter Call.isRemote = [Call.GetRun req.RunID,
      Call.RunTaskActions req.RunID req.TaskID ⟨"approve", req.ApprovalAnnotations⟩] ∧
    ((RunTaskAction h req w).result = none ↔ c.err = none) ∧
    (∀ err, c.err = some err →
      (RunTaskAction h req w).result = some (h.ErrFromRemote c.resp err)) ∧
    (RunTaskAction h req w).world = w3 := by
  rcases c with ⟨cresp, _ | err⟩ <;>
    simp [RunTaskAction, htype, hfetch, hauth, hact, Call.isRemote,
      rsapi.RunTaskActionTypeApprove]

/-- The approval of task "t1" of run "r1" with one annotation and the action
granted: one `RunTaskActions` call carrying that annotation, and nil comes
back because that call succeeds. -/
theorem C10_approve_sends_task_action_witness :
    (RunTaskAction (stubHandler fetchOk pageOk actOk ⟨true, none⟩)
        ⟨"r1", "t1", "approve", [("approver", "alice")]⟩ 0).trace
      = [Call.GetRun "r1", Call.CanDoRunActions "g1",
        Call.RunTaskActions "r1" "t1" ⟨"approve", [("approver", "alice")]⟩] ∧
    (RunTaskAction (stubHandler fetchOk pageOk actOk ⟨true, none⟩)
        ⟨"r1", "t1", "approve", [("approver", "alice")]⟩ 0).result = none :=
  have key := C10_approve_sends_task_action (stubHandler fetchOk pageOk actOk ⟨true, none⟩)
    ⟨"r1", "t1", "approve", [("approver", "alice")]⟩ 0 1 2 3 runR1 (some ⟨200⟩) actOk
    rfl rfl rfl rfl
  ⟨key.1, key.2.2.1.mpr rfl⟩

/-! ## Unknown action types -/

/-- C3, as stated, fails: the request `RunAction{RunID:"r1", ActionType:"pause"}`
has an action type that is neither "restart" nor "stop", yet its trace starts
with the remote fetch of the run; and when the run-action check denies, or the
fetch fails, the result is the forbidden error, or the translated fetch error,
and not a bad request. -/
theorem C3_counterexample :
    (("pause" : RunActionType) ≠ RunActionTypeRestart ∧
      ("pause" : RunActionType) ≠ RunActionTypeStop) ∧
    ((RunAction (stubHandler fetchOk pageOk actOk ⟨true, none⟩) ⟨"r1", "pause", false⟩ 0).trace
        = [Call.GetRun "r1", Call.CanDoRunActions "g1"] ∧
      (Call.GetRun "r1").isRemote = true) ∧
    (RunAction (stubHandler fetchOk pageOk actOk ⟨false, none⟩) ⟨"r1", "pause", false⟩ 0).result
      = some (Error.ErrForbidden (Error.Errorf "user not authorized" [])) ∧
    (RunAction (stubHandler fetchFailed pageOk actOk ⟨true, none⟩) ⟨"r1", "pause", false⟩ 0).result
      = some (Error.Wrapf (Error.external "run not found") "404") :=
  ⟨⟨by decide, by decide⟩, ⟨rfl, rfl⟩, rfl, rfl⟩

/-- C3, amended: a `RunAction` request whose action type is neither "restart"
nor "stop" makes one remote call only, the fetch of the run, and so no
`CreateRun` and no `RunActions` call; when that fetch succeeds and the
run-action check is granted, the result is the bad request error with message
"wrong run action type %q" formatted with the action type, built after the
check with no further call. -/
theorem C3_unknown_run_action {σ : Type} (h : ActionHandler σ) (req : RunActionsRequest)
    (w : σ) (hrestart : req.ActionType ≠ RunActionTypeRestart)
    (hstop : req.ActionType ≠ RunActionTypeStop) :
    (RunAction h req w).trace.filter Call.isRemote = [Call.GetRun req.RunID] ∧
    (∀ (run : RunResponse) (resp : Option HttpResponse) (w1 w2 : σ),
      h.runserviceClient.GetRun req.RunID w = (⟨run, resp, none⟩, w1) →
      h.CanDoRunActions run.RunConfig.Group w1 = (⟨true, none⟩, w2) →
      RunAction h req w
        = ⟨some (NewErrBadRequest (Error.Errorf "wrong run action type %q" [req.ActionType])),
          [Call.GetRun req.RunID, Call.CanDoRunActions run.RunConfig.Group], w2⟩) := by
  constructor
  · rcases hf : h.runserviceClient.GetRun req.RunID w with ⟨⟨run, resp, _ | err⟩, w1⟩
    · rcases ha : h.CanDoRunActions run.RunConfig.Group w1 with ⟨⟨b, _ | e⟩, w2⟩
      · cases b <;> simp [RunAction, hf, ha, hrestart, hstop, Call.isRemote]
      · simp [RunAction, hf, ha, Call.isRemote]
    · simp [RunAction, hf, Call.isRemote]
  · intro run resp w1 w2 hfetch hauth
    simp [RunAction, hfetch, hauth, hrestart, hstop]

/-- The request `RunAction{RunID:"r1", ActionType:"pause"}` with the fetch
succeeding and the action granted: the bad request error naming "pause", after
the fetch and the check. -/
theorem C3_unknown_run_action_witness :
    RunAction (stubHandler fetchOk pageOk actOk ⟨true, none⟩) ⟨"r1", "pause", false⟩ 0
      = ⟨some (Error.ErrBadRequest (Error.Errorf "wrong run action type %q" ["pause"])),
        [Call.GetRun "r1", Call.CanDoRunActions "g1"], 2⟩ :=
  (C3_unknown_run_action (stubHandler fetchOk pageOk actOk ⟨true, none⟩)
    ⟨"r1", "pause", false⟩ 0 (by decide) (by decide)).2 runR1 (some ⟨200⟩) 1 2 rfl rfl

/-- C4, as stated, fails: the request `RunTaskAction{RunID:"r1", TaskID:"t1",
ActionType:"reject"}` has an action type that is not "approve", yet its trace
starts with the remote fetch of the run; and when the run-action check denies,
or the fetch fails, the result is the forbidden error, or the translated fetch
error, and not a bad request. -/
theorem C4_counterexample :
    ("reject" : RunTaskActionType) ≠ RunTaskActionTypeApprove ∧
    ((RunTaskAction (stubHandler fetchOk pageOk actOk ⟨true, none⟩)
          ⟨"r1", "t1", "reject", []⟩ 0).trace
        = [Call.GetRun "r1", Call.CanDoRunActions "g1"] ∧
      (Call.GetRun "r1").isRemote = true) ∧
    (RunTaskAction (stubHandler fetchOk pageOk actOk ⟨false, none⟩)
        ⟨"r1", "t1", "reject", []⟩ 0).result
      = some (Error.ErrForbidden (Error.Errorf "user not authorized" [])) ∧
    (RunTaskAction (stubHandler fetchFailed pageOk actOk ⟨true, none⟩)
        ⟨"r1", "t1", "reject", []⟩ 0).result
      = some (Error.Wrapf (Error.external "run not found") "404") :=
  ⟨by decide, ⟨rfl, rfl⟩, rfl, rfl⟩

/-- C4, amended: a `RunTaskAction` request whose action type is not "approve"
makes one remote call only, the fetch of the run, and so no `RunTaskActions`
call; when that fetch succeeds and the run-action check is granted, the result
is the bad request error with message "wrong run task action type %q" formatted
with the action type, built after the check with no further call. -/
theorem C4_unknown_run_task_action {σ : Type} (h : ActionHandler σ)
    (req : RunTaskActionsRequest) (w : σ)
    (happrove : req.ActionType ≠ RunTaskActionTypeApprove) :
    (RunTaskAction h req w).trace.filter Call.isRemote = [Call.GetRun req.RunID] ∧
    (∀ (run : RunResponse) (resp : Option HttpResponse) (w1 w2 : σ),
      h.runserviceClient.GetRun req.RunID w = (⟨run, resp, none⟩, w1) →
      h.CanDoRunActions run.RunConfig.Group w1 = (⟨true, none⟩, w2) →
      RunTaskAction h req w
        = ⟨some (NewErrBadRequest
            (Error.Errorf "wrong run task action type %q" [req.ActionType])),
          [Call.GetRun req.RunID, Call.CanDoRunActions run.RunConfig.Group], w2⟩) := by
  constructor
  · rcases hf : h.runserviceClient.GetRun req.RunID w with ⟨⟨run, resp, _ | err⟩, w1⟩
    · rcases ha : h.CanDoRunActions run.RunConfig.Group w1 with ⟨⟨b, _ | e⟩, w2⟩
      · cases b <;> simp [RunTaskAction, hf, ha, happrove, Call.isRemote]
      · simp [RunTaskAction, hf, ha, Call.isRemote]
    · simp [RunTaskAction, hf, Call.isRemote]
  · intro run resp w1 w2 hfetch hauth
    simp [RunTaskAction, hfetch, hauth, happrove]

/-- The request `RunTaskAction{RunID:"r1", TaskID:"t1", ActionType:"reject"}`
with the fetch succeeding and the action granted: the bad request error naming
"reject", after the fetch and the check. -/
theorem C4_unknown_run_task_action_witness :
    RunTaskAction (stubHandler fetchOk pageOk actOk ⟨true, none⟩) ⟨"r1", "t1", "reject", []⟩ 0
      = ⟨some (Error.ErrBadRequest
          (Error.Errorf "wrong run task action type %q" ["reject"])),
        [Call.GetRun "r1", Call.CanDoRunActions "g1"], 2⟩ :=
  (C4_unknown_run_task_action (stubHandler fetchOk pageOk actOk ⟨true, none⟩)
    ⟨"r1", "t1", "reject", []⟩ 0 (by decide)).2 runR1 (some ⟨200⟩) 1 2 rfl rfl

/-! ## The permission check comes first -/

/-- In a trace that starts with two calls that are not guarded, a guarded call
comes after both, so the trace goes on beyond them and the second call stands
before the guarded one. -/
theorem guarded_call_is_later (a b : Call) (rest : List Call)
    (ha : a.isGuarded = false) (hb : b.isGuarded = false) (pre post : List Call) (c : Call)
    (hsplit : a :: b :: rest = pre ++ c :: post) (hc : c.isGuarded = true) :
    b ∈ pre ∧ rest ≠ [] := by
  rcases pre with _ | ⟨p, _ | ⟨q, pre⟩⟩
  · simp at hsplit
    rw [hsplit.1, hc] at ha
    cases ha
  · simp at hsplit
    rw [hsplit.2.1, hc] at hb
    cases hb
  · simp at hsplit
    refine ⟨by simp [hsplit.2.1], ?_⟩
    intro hnil
    rw [hnil] at hsplit
    simp at hsplit

/-- The trace of `GetLogs` after a fetch that succeeds: the fetch, the "can
view" check on the fetched run's group, and at most one more call, which is no
permission check and is there only when the check answered "allowed" with no
error. -/
theorem GetLogs_trace_shape {σ : Type} (h : ActionHandler σ) (req : GetLogsRequest) (w w1 : σ)
    (run : RunResponse) (resp : Option HttpResponse)
    (hfetch : h.runserviceClient.GetRun req.RunID w = (⟨run, resp, none⟩, w1)) :
    ∃ rest, (GetLogs h req w).trace
        = Call.GetRun req.RunID :: Call.CanGetRun run.RunConfig.Group :: rest ∧
      rest.length ≤ 1 ∧ rest.filter Call.isAuth = [] ∧
      (rest ≠ [] → (h.CanGetRun run.RunConfig.Group w1).1 = ⟨true, none⟩) := by
  rcases ha : h.CanGetRun run.RunConfig.Group w1 with ⟨⟨b, _ | e⟩, w2⟩
  · cases b
    · exact ⟨[], by simp [GetLogs, hfetch, ha]⟩
    · refine ⟨[Call.GetLogs req.RunID req.TaskID req.Setup req.Step req.Follow req.Stream], ?_⟩
      rcases hl : h.runserviceClient.GetLogs req.RunID req.TaskID req.Setup req.Step
        req.Follow req.Stream w2 with ⟨⟨lresp, _ | lerr⟩, w3⟩ <;>
        simp [GetLogs, hfetch, ha, hl, Call.isAuth]
  · exact ⟨[], by simp [GetLogs, hfetch, ha]⟩

/-- The trace of `RunAction` after a fetch that succeeds: the fetch, the "can
perform run actions" check on the fetched run's group, and at most one more
call, which is no permission check and is there only when the check answered
"allowed" with no error. -/
theorem RunAction_trace_shape {σ : Type} (h : ActionHandler σ) (req : RunActionsRequest)
    (w w1 : σ) (run : RunResponse) (resp : Option HttpResponse)
    (hfetch : h.runserviceClient.GetRun req.RunID w = (⟨run, resp, none⟩, w1)) :
    ∃ rest, (RunAction h req w).trace
        = Call.GetRun req.RunID :: Call.CanDoRunActions run.RunConfig.Group :: rest ∧
      rest.length ≤ 1 ∧ rest.filter Call.isAuth = [] ∧
      (rest ≠ [] → (h.CanDoRunActions run.RunConfig.Group w1).1 = ⟨true, none⟩) := by
  rcases ha : h.CanDoRunActions run.RunConfig.Group w1 with ⟨⟨b, _ | e⟩, w2⟩
  · cases b
    · exact ⟨[], by simp [RunAction, hfetch, ha]⟩
    · by_cases h1 : req.ActionType = RunActionTypeRestart
      · refine ⟨[Call.CreateRun ⟨req.RunID, req.FromStart⟩], ?_⟩
        rcases hc : h.runserviceClient.CreateRun ⟨req.RunID, req.FromStart⟩ w2
          with ⟨⟨cresp, _ | cerr⟩, w3⟩ <;>
          simp [RunAction, hfetch, ha, h1, hc, Call.isAuth]
      · by_cases h2 : req.ActionType = RunActionTypeStop
        · refine ⟨[Call.RunActions req.RunID ⟨"stop"⟩], ?_⟩
          rw [h2] at h1
          rcases hc : h.runserviceClient.RunActions req.RunID ⟨"stop"⟩ w2
            with ⟨⟨cresp, _ | cerr⟩, w3⟩ <;>
            simp [RunAction, hfetch, ha, h1, h2, hc, Call.isAuth, rsapi.RunActionTypeStop]
        · exact ⟨[], by simp [RunAction, hfetch, ha, h1, h2]⟩
  · exact ⟨[], by simp [RunAction, hfetch, ha]⟩

/-- The trace of `RunTaskAction` after a fetch that succeeds: the fetch, the
"can perform run actions" check on the fetched run's group, and at most one
more call, which is no permission check and is there only when the check
answered "allowed" with no error. -/
theorem RunTaskAction_trace_shape {σ : Type} (h : ActionHandler σ)
    (req : RunTaskActionsRequest) (w w1 : σ) (run : RunResponse) (resp : Option HttpResponse)
    (hfetch : h.runserviceClient.GetRun req.RunID w = (⟨run, resp, none⟩, w1)) :
    ∃ rest, (RunTaskAction h req w).trace
        = Call.GetRun req.RunID :: Call.CanDoRunActions run.RunConfig.Group :: rest ∧
      rest.length ≤ 1 ∧ rest.filter Call.isAuth = [] ∧
      (rest ≠ [] → (h.CanDoRunActions run.RunConfig.Group w1).1 = ⟨true, none⟩) := by
  rcases ha : h.CanDoRunActions run.RunConfig.Group w1 with ⟨⟨b, _ | e⟩, w2⟩
  · cases b
    · exact ⟨[], by simp [RunTaskAction, hfetch, ha]⟩
    · by_cases h1 : req.ActionType = RunTaskActionTypeApprove
      · refine ⟨[Call.RunTaskActions req.RunID req.TaskID
          ⟨"approve", req.ApprovalAnnotations⟩], ?_⟩
        rcases hc : h.runserviceClient.RunTaskActions req.RunID req.TaskID
          ⟨"approve", req.ApprovalAnnotations⟩ w2 with ⟨⟨cresp, _ | cerr⟩, w3⟩ <;>
          simp [RunTaskAction, hfetch, ha, h1, hc, Call.isAuth,
            rsapi.RunTaskActionTypeApprove]
      · exact ⟨[], by simp [RunTaskAction, hfetch, ha, h1]⟩
  · exact ⟨[], by simp [RunTaskAction, hfetch, ha]⟩

/-- C9: whenever the fetch of the run succeeds, each of `GetRun`, `GetLogs`,
`RunAction` and `RunTaskAction` evaluates exactly one permission check, on the
`RunConfig.Group` of the run that the fetch returned, in the world the fetch
left: "can view" for the two read operations, "can perform run actions" for
the two mutating ones.  A log, create, run action or task action call is in the
trace only behind that check and only when the check answered "allowed" with no
error; `GetRun` makes no such call. -/
theorem C9_check_on_fetched_group {σ : Type} (h : ActionHandler σ) (w w1 : σ)
    (runID : String) (run : RunResponse) (resp : Option HttpResponse)
    (hfetch : h.runserviceClient.GetRun runID w = (⟨run, resp, none⟩, w1)) :
    ((GetRun h runID w).trace.filter Call.isAuth = [Call.CanGetRun run.RunConfig.Group] ∧
      ∀ c ∈ (GetRun h runID w).trace, c.isGuarded = false) ∧
    (∀ req : GetLogsRequest, req.RunID = runID →
      (GetLogs h req w).trace.filter Call.isAuth = [Call.CanGetRun run.RunConfig.Group] ∧
      ∀ pre c post, (GetLogs h req w).trace = pre ++ c :: post → c.isGuarded = true →
        Call.CanGetRun run.RunConfig.Group ∈ pre ∧
        (h.CanGetRun run.RunConfig.Group w1).1 = ⟨true, none⟩) ∧
    (∀ req : RunActionsRequest, req.RunID = runID →
      (RunAction h req w).trace.filter Call.isAuth
        = [Call.CanDoRunActions run.RunConfig.Group] ∧
      ∀ pre c post, (RunAction h req w).trace = pre ++ c :: post → c.isGuarded = true →
        Call.CanDoRunActions run.RunConfig.Group ∈ pre ∧
        (h.CanDoRunActions run.RunConfig.Group w1).1 = ⟨true, none⟩) ∧
    (∀ req : RunTaskActionsRequest, req.RunID = runID →
      (RunTaskAction h req w).trace.filter Call.isAuth
        = [Call.CanDoRunActions run.RunConfig.Group] ∧
      ∀ pre c post, (RunTaskAction h req w).trace = pre ++ c :: post → c.isGuarded = true →
        Call.CanDoRunActions run.RunConfig.Group ∈ pre ∧
        (h.CanDoRunActions run.RunConfig.Group w1).1 = ⟨true, none⟩) := by
  refine ⟨?_, ?_, ?_, ?_⟩
  · have e : (GetRun h runID w).trace
        = [Call.GetRun runID, Call.CanGetRun run.RunConfig.Group] := by
      rcases ha : h.CanGetRun run.RunConfig.Group w1 with ⟨⟨b, _ | e⟩, w2⟩
      · cases b <;> simp [GetRun, hfetch, ha]
      · simp [GetRun, hfetch, ha]
    rw [e]
    simp [Call.isAuth, Call.isGuarded]
  · intro req hreq
    subst hreq
    obtain ⟨rest, htrace, -, hauth, hgrant⟩ := GetLogs_trace_shape h req w w1 run resp hfetch
    rw [htrace]
    refine ⟨by simp [List.filter_cons, Call.isAuth, hauth], ?_⟩
    intro pre c post hsplit hc
    have key := guarded_call_is_later (Call.GetRun req.RunID)
      (Call.CanGetRun run.RunConfig.Group) rest rfl rfl pre post c hsplit hc
    exact ⟨key.1, hgrant key.2⟩
  · intro req hreq
    subst hreq
    obtain ⟨rest, htrace, -, hauth, hgrant⟩ := RunAction_trace_shape h req w w1 run resp hfetch
    rw [htrace]
    refine ⟨by simp [List.filter_cons, Call.isAuth, hauth], ?_⟩
    intro pre c post hsplit hc
    have key := guarded_call_is_later (Call.GetRun req.RunID)
      (Call.CanDoRunActions run.RunConfig.Group) rest rfl rfl pre post c hsplit hc
    exact ⟨key.1, hgrant key.2⟩
  · intro req hreq
    subst hreq
    obtain ⟨rest, htrace, -, hauth, hgrant⟩ :=
      RunTaskAction_trace_shape h req w w1 run resp hfetch
    rw [htrace]
    refine ⟨by simp [List.filter_cons, Call.isAuth, hauth], ?_⟩
    intro pre c post hsplit hc
    have key := guarded_call_is_later (Call.GetRun req.RunID)
      (Call.CanDoRunActions run.RunConfig.Group) rest rfl rfl pre post c hsplit hc
    exact ⟨key.1, hgrant key.2⟩

/-- The run "r1" is fetched with group "g1" and everything is granted: each
operation makes one check, on "g1", and the log, create and task action calls
stand behind it. -/
theorem C9_check_on_fetched_group_witness :
    (GetRun (stubHandler fetchOk pageOk actOk ⟨true, none⟩) "r1" 0).trace.filter Call.isAuth
      = [Call.CanGetRun "g1"] ∧
    (Call.CanGetRun "g1" ∈ [Call.GetRun "r1", Call.CanGetRun "g1"] ∧
      ((stubHandler fetchOk pageOk actOk ⟨true, none⟩).CanGetRun "g1" 1).1 = ⟨true, none⟩) ∧
    (Call.CanDoRunActions "g1" ∈ [Call.GetRun "r1", Call.CanDoRunActions "g1"] ∧
      ((stubHandler fetchOk pageOk actOk ⟨true, none⟩).CanDoRunActions "g1" 1).1
        = ⟨true, none⟩) ∧
    (RunTaskAction (stubHandler fetchOk pageOk actOk ⟨true, none⟩)
        ⟨"r1", "t1", "approve", []⟩ 0).trace.filter Call.isAuth
      = [Call.CanDoRunActions "g1"] :=
  have key := C9_check_on_fetched_group (stubHandler fetchOk pageOk actOk ⟨true, none⟩) 0 1
    "r1" runR1 (some ⟨200⟩) rfl
  ⟨key.1.1,
    (key.2.1 ⟨"r1", "t1", false, 0, false, false⟩ rfl).2
      [Call.GetRun "r1", Call.CanGetRun "g1"]
      (Call.GetLogs "r1" "t1" false 0 false false) [] rfl rfl,
    (key.2.2.1 ⟨"r1", "restart", true⟩ rfl).2
      [Call.GetRun "r1", Call.CanDoRunActions "g1"] (Call.CreateRun ⟨"r1", true⟩) [] rfl rfl,
    (key.2.2.2 ⟨"r1", "t1", "approve", []⟩ rfl).1⟩

end action
